import Mathlib

/-!
Verification of the multi-worker collective-coordination layer of the
repository (the `CollectiveAllReduceExtended` strategy and its peer
health-check mechanism), together with the collective primitives it
invokes (all-reduce, broadcast, gather).

The strategy-level logic is embedded from
`tensorflow/python/distribute/collective_all_reduce_strategy.py`.
The collective primitives themselves are C++ kernels that are not part of
the source excerpt (only their tests and callers are), so they are
modelled from the specification's component contract (section 4.3).
Tensor payloads are modelled with exact rational arithmetic.
-/

namespace Collective

/-- Element dtype of a tensor.  The tests exercise float16/float32 and
integer tensors; the dtype only matters for equality checks. -/
inductive DType
  | f16
  | f32
  | i32
  deriving DecidableEq, Repr

/-- A dense tensor: a shape, a dtype and a flat row-major data buffer.
Values are exact rationals (the spec's numeric semantics, not IEEE floats). -/
structure Tensor where
  shape : List Nat
  dtype : DType
  data : List ℚ
  deriving DecidableEq, Repr

instance : Inhabited Tensor := ⟨⟨[], DType.f32, []⟩⟩

/-- Reduction operator enum of the collective contract:
`all_reduce(op: SUM|MEAN|MAX|MIN, ...)`. -/
inductive ReduceOp
  | SUM
  | MEAN
  | MAX
  | MIN
  deriving DecidableEq, Repr

/-- Error taxonomy of the coordination layer (spec section 7). -/
inductive CollErr
  | GroupSizeMismatch
  | ShapeMismatch
  | DeadlineExceeded
  | Unavailable
  | InternalErr
  deriving DecidableEq, Repr

/-- One participant's contribution to a collective instance: the group
size it declares, the keys it supplies and its input tensor.  Participants
are listed in ascending device/task rank order. -/
structure PartInput where
  group_size : Nat
  group_key : Nat
  instance_key : Nat
  tensor : Tensor
  deriving DecidableEq, Repr

/-- Modelled from the spec: participants of one logical collective all
supply the same `(group_key, instance_key)`; a list whose keys disagree is
not a single instance. -/
def same_instance (ps : List PartInput) : Bool :=
  match ps with
  | [] => true
  | p :: rest =>
      rest.all (fun q => q.group_key == p.group_key && q.instance_key == p.instance_key)

/-- Modelled from the spec: every participant's declared `group_size` must
equal the total number of participants — "group_size must equal total
participants across all tasks ... mismatch is a fatal GroupSizeMismatch". -/
def group_sizes_ok (ps : List PartInput) : Bool :=
  ps.all (fun q => q.group_size == ps.length)

/-- Elementwise merge of two data buffers under a reduction operator
(`MEAN` merges by addition; the division happens in the final step). -/
def mergeData (op : ReduceOp) (x y : List ℚ) : List ℚ :=
  match op with
  | ReduceOp.SUM => List.zipWith (· + ·) x y
  | ReduceOp.MEAN => List.zipWith (· + ·) x y
  | ReduceOp.MAX => List.zipWith max x y
  | ReduceOp.MIN => List.zipWith min x y

/-- Final step applied to the merged buffer: `MEAN` divides the summed
result by the group size, the other operators are pure merges. -/
def finalizeData (op : ReduceOp) (group_size : Nat) (x : List ℚ) : List ℚ :=
  match op with
  | ReduceOp.MEAN => x.map (fun v => v / (group_size : ℚ))
  | _ => x

/-- Modelled from the spec: the all-reduce collective primitive (a C++
kernel, not part of the source excerpt).  Participants are merged in a
fixed, deterministic order (ascending rank, i.e. list order); every
participant receives the same reduced tensor.  Mismatched declared group
sizes fail with `GroupSizeMismatch` and produce no result for anybody;
mismatched shapes or dtypes fail with `ShapeMismatch`. -/
def all_reduce (op : ReduceOp) (ps : List PartInput) : Except CollErr (List Tensor) :=
  match ps with
  | [] => Except.error CollErr.InternalErr
  | p :: rest =>
      if ¬ same_instance (p :: rest) then Except.error CollErr.InternalErr
      else if ¬ group_sizes_ok (p :: rest) then Except.error CollErr.GroupSizeMismatch
      else if ¬ rest.all (fun q =>
          q.tensor.shape == p.tensor.shape && q.tensor.dtype == p.tensor.dtype) then
        Except.error CollErr.ShapeMismatch
      else
        let merged := rest.foldl (fun acc q => mergeData op acc q.tensor.data) p.tensor.data
        let final := finalizeData op (p :: rest).length merged
        Except.ok (List.replicate (p :: rest).length ⟨p.tensor.shape, p.tensor.dtype, final⟩)

/-- Elementwise sum of two tensors (the shape and dtype of the first). -/
def Tensor.add (a b : Tensor) : Tensor :=
  ⟨a.shape, a.dtype, List.zipWith (· + ·) a.data b.data⟩

/-- Pointwise division of a tensor by a natural number. -/
def Tensor.divNat (a : Tensor) (n : Nat) : Tensor :=
  ⟨a.shape, a.dtype, a.data.map (fun v => v / (n : ℚ))⟩

/-- Modelled from the spec: the concatenation of the participants' tensors
in ascending rank order (list order), along the leading axis.  Row-major
buffers concatenate directly.  Empty shape (a scalar) has no concatenation
axis; the caller checks that. -/
def gatherConcat (ps : List PartInput) : Tensor :=
  match ps with
  | [] => default
  | p :: _ =>
      let headDims := ps.map (fun q => q.tensor.shape.headD 0)
      ⟨headDims.sum :: p.tensor.shape.tail, p.tensor.dtype,
        (ps.map (fun q => q.tensor.data)).flatten⟩

/-- Modelled from the spec: the all-gather collective primitive (a C++
kernel, not part of the source excerpt).  "gather(tensor) -> concatenated
tensors from all participants, ordered by task/device rank; all
participants must supply congruent shapes except the concatenation axis."
Every participant receives the same concatenated tensor. -/
def all_gather (ps : List PartInput) : Except CollErr (List Tensor) :=
  match ps with
  | [] => Except.error CollErr.InternalErr
  | p :: rest =>
      if ¬ same_instance (p :: rest) then Except.error CollErr.InternalErr
      else if ¬ group_sizes_ok (p :: rest) then Except.error CollErr.GroupSizeMismatch
      else
        match p.tensor.shape with
        | [] => Except.error CollErr.ShapeMismatch
        | _ :: tail =>
            if ¬ rest.all (fun q =>
                q.tensor.shape.tail == tail && q.tensor.shape.length == tail.length + 1
                  && q.tensor.dtype == p.tensor.dtype) then
              Except.error CollErr.ShapeMismatch
            else
              Except.ok (List.replicate (p :: rest).length (gatherConcat (p :: rest)))

/-- Modelled from the spec: a broadcast channel.  `broadcast_send` places
the chief's tensor on the channel; every receiver reads that same value. -/
structure BChan where
  sent : Tensor
  deriving DecidableEq, Repr

/-- Modelled from the spec: the broadcast-send primitive — one designated
sender (the chief) contributes its tensor to the channel. -/
def broadcast_send (t : Tensor) : BChan := ⟨t⟩

/-- Modelled from the spec: the broadcast-recv primitive — a receiver
declares a shape and dtype and obtains the sent tensor; "shapes/dtypes
must match exactly across participants or the call fails with
`ShapeMismatch`". -/
def broadcast_recv (shape : List Nat) (dtype : DType) (ch : BChan) : Except CollErr Tensor :=
  if ch.sent.shape == shape && ch.sent.dtype == dtype then Except.ok ch.sent
  else Except.error CollErr.ShapeMismatch

/-- Embeds `initial_value_fn` inside
`CollectiveAllReduceExtended._get_variable_creator_initial_value`
(collective_all_reduce_strategy.py, lines 426-455), for the first replica
on a worker: with more than one worker the chief broadcast-sends its
evaluated initial value and returns it (identity after the send), a
non-chief evaluates its own initial value for shape/dtype and returns what
it broadcast-receives; with a single worker the local value is returned. -/
def initial_value_result (is_chief : Bool) (num_workers : Nat) (initial_value : Tensor)
    (wire : Except CollErr Tensor) : Except CollErr Tensor :=
  if num_workers > 1 then
    if is_chief then Except.ok initial_value
    else wire
  else Except.ok initial_value

/-- Composition of one chief and a list of non-chief workers performing
the initial-value broadcast of
`_get_variable_creator_initial_value`: the chief evaluates `chief_value`
and broadcast-sends it, every non-chief evaluates its own `other_value`
(to know the shape and dtype to receive) and broadcast-receives.  Returns
the chief's result and the per-non-chief results. -/
def run_initial_value_broadcast (chief_value : Tensor) (other_values : List Tensor) :
    Except CollErr Tensor × List (Except CollErr Tensor) :=
  let num_workers := other_values.length + 1
  let ch := broadcast_send chief_value
  (initial_value_result true num_workers chief_value (Except.error CollErr.InternalErr),
   other_values.map (fun o =>
     initial_value_result false num_workers o (broadcast_recv o.shape o.dtype ch)))

/-- State established by `CollectiveAllReduceExtended._initialize_multi_worker`
(collective_all_reduce_strategy.py, lines 285-398): the two collective
channels' group sizes, the local and worker device lists and chief flag. -/
structure MWInit where
  num_workers : Nat
  is_chief : Bool
  local_devices : List String
  /-- `group_size` of `self._cross_device_ops` (line 368). -/
  cross_group_size : Nat
  /-- `group_size` of `self._host_cross_device_ops` (line 374). -/
  host_group_size : Nat
  /-- Modelled from the spec: `MirroredExtended._initialize_single_worker`
  (not part of the source excerpt) records the local devices as the
  worker (replica) devices of the strategy. -/
  worker_devices : List String
  default_device : String
  deriving DecidableEq, Repr

/-- Error raised when `_initialize_multi_worker` finds no worker tasks
(line 301-303). -/
inductive InitErr
  | NoWorkers
  deriving DecidableEq, Repr

/-- Embeds `CollectiveAllReduceExtended._initialize_multi_worker`.
`num_workers` stands for `multi_worker_util.worker_count(...)` and
`is_chief` for `multi_worker_util.is_chief(...)` (that module is not part
of the source excerpt); `num_gpus` is the accelerator count from the
cluster resolver.  Local devices are the worker's GPUs, or the worker
device itself when there are none (lines 359-363); the compute channel's
group size is `len(local_devices) * num_workers` (line 368) and the host
channel's is `num_workers` (line 374). -/
def init_multi_worker (task_type : String) (task_id : Nat) (num_workers : Nat)
    (num_gpus : Nat) (is_chief : Bool) : Except InitErr MWInit :=
  if num_workers = 0 then Except.error InitErr.NoWorkers
  else
    let worker_device := "/job:" ++ task_type ++ "/task:" ++ toString task_id
    let local_devices :=
      if num_gpus ≠ 0 then
        (List.range num_gpus).map (fun i => worker_device ++ "/device:GPU:" ++ toString i)
      else [worker_device]
    Except.ok
      { num_workers := num_workers
        is_chief := is_chief
        local_devices := local_devices
        cross_group_size := local_devices.length * num_workers
        host_group_size := num_workers
        worker_devices := local_devices
        default_device := worker_device }

/-- Embeds the property `CollectiveAllReduceExtended._num_replicas_in_sync`
(lines 755-757): `len(self.worker_devices) * self._num_workers`. -/
def num_replicas_in_sync (s : MWInit) : Nat :=
  s.worker_devices.length * s.num_workers

/-- A distributed value as seen by `_reduce_to`: a `Mirrored` value
(replica-identical, one copy per device), a `PerReplica` value (one
distinct copy per device) — both are `DistributedValues` — or a plain
non-distributed value. -/
inductive DistValue
  | mirrored (ts : List Tensor)
  | perReplica (ts : List Tensor)
  | plain (t : Tensor)
  deriving DecidableEq, Repr

/-- Whether a value is an instance of `values.DistributedValues`. -/
def DistValue.isDistributed : DistValue → Bool
  | DistValue.mirrored _ => true
  | DistValue.perReplica _ => true
  | DistValue.plain _ => false

/-- `len(value._values)` for a distributed value, 1 otherwise. -/
def DistValue.numDevices : DistValue → Nat
  | DistValue.mirrored ts => ts.length
  | DistValue.perReplica ts => ts.length
  | DistValue.plain _ => 1

/-- The channel `_get_cross_device_ops` can pick. -/
inductive ChannelChoice
  | computeChannel
  | hostChannel
  deriving DecidableEq, Repr

/-- Embeds `CollectiveAllReduceExtended._get_cross_device_ops`
(lines 592-606): the compute-device channel when the value has exactly one
component per worker device, the host channel otherwise. -/
def get_cross_device_ops (v : DistValue) (worker_devices : List String) : ChannelChoice :=
  if v.numDevices = worker_devices.length then ChannelChoice.computeChannel
  else ChannelChoice.hostChannel

/-- How `_reduce_to` disposes of a reduction request: returning the value
unchanged (no collective), failing the `assert not isinstance(value,
Mirrored)`, reducing a non-distributed value locally, or dispatching a
collective reduce on one of the two channels. -/
inductive ReduceDispatch
  | identity (v : DistValue)
  | assertionFailed
  | nonDistributedReduce (op : ReduceOp) (t : Tensor)
  | collectiveReduce (ch : ChannelChoice) (op : ReduceOp) (v : DistValue)
  deriving DecidableEq, Repr

/-- Whether a dispatch performs collective communication. -/
def ReduceDispatch.performsCollective : ReduceDispatch → Bool
  | ReduceDispatch.collectiveReduce _ _ _ => true
  | _ => false

/-- Embeds `CollectiveAllReduceExtended._reduce_to` (lines 616-640):
a `Mirrored` value reduced with `MEAN` is returned unchanged; any other
`Mirrored` value trips the assertion; a `DistributedValues` on a
single-device worker is unwrapped to its sole component; a non-distributed
value with a single worker is reduced locally; everything else goes to the
channel chosen by `_get_cross_device_ops`. -/
def reduce_to (op : ReduceOp) (value : DistValue) (num_workers : Nat)
    (worker_devices : List String) : ReduceDispatch :=
  match value, op with
  | DistValue.mirrored ts, ReduceOp.MEAN => ReduceDispatch.identity (DistValue.mirrored ts)
  | DistValue.mirrored _, _ => ReduceDispatch.assertionFailed
  | v, _ =>
      let v1 :=
        if v.isDistributed && worker_devices.length == 1 then
          match v with
          | DistValue.perReplica ts => DistValue.plain (ts.headD default)
          | w => w
        else v
      match v1 with
      | DistValue.plain t =>
          if num_workers = 1 then ReduceDispatch.nonDistributedReduce op t
          else ReduceDispatch.collectiveReduce
            (get_cross_device_ops (DistValue.plain t) worker_devices) op (DistValue.plain t)
      | w => ReduceDispatch.collectiveReduce (get_cross_device_ops w worker_devices) op w

/-- Outcome of one `check_collective_ops_peer_health` probe as
`_check_health` (lines 642-680) distinguishes them: success, the two
caught error classes (`UnavailableError`, `FailedPreconditionError` — both
mean "the peer seems down"), and any other exception. -/
inductive ProbeResult
  | healthy
  | unavailable
  | failedPrecondition
  | unexpected
  deriving DecidableEq, Repr

/-- A probe outcome that counts towards declaring the peer down. -/
def ProbeResult.isFailure : ProbeResult → Bool
  | ProbeResult.unavailable => true
  | ProbeResult.failedPrecondition => true
  | _ => false

/-- Result of the per-peer retry loop of `_check_health` (lines 649-679):
the peer answered at some attempt, the peer was declared down after the
retries were exhausted, or an unexpected exception was hit. -/
inductive PeerCheck
  | answered (attempt : Nat)
  | declaredDown (attempt : Nat)
  | unexpectedErr (attempt : Nat)
  deriving DecidableEq, Repr

/-- The inner retry loop of `_check_health` at attempt number `attempt`
with `remaining` retries left (`remaining = retry_limit - attempt` while
`attempt ≤ retry_limit`): a successful probe breaks out, an
`Unavailable`/`FailedPrecondition` probe retries while `attempts <
retry_limit` and otherwise declares the peer down, and any other
exception stops the check. -/
def checkPeerGo (probe : Nat → ProbeResult) (attempt : Nat) : Nat → PeerCheck
  | 0 =>
      match probe attempt with
      | ProbeResult.healthy => PeerCheck.answered attempt
      | ProbeResult.unexpected => PeerCheck.unexpectedErr attempt
      | _ => PeerCheck.declaredDown attempt
  | r + 1 =>
      match probe attempt with
      | ProbeResult.healthy => PeerCheck.answered attempt
      | ProbeResult.unexpected => PeerCheck.unexpectedErr attempt
      | _ => checkPeerGo probe (attempt + 1) r

/-- One peer's health check in one round: the retry loop starts at
attempt 1 (the code increments `attempts` before the first probe) and may
retry while `attempts < retry_limit`. -/
def checkPeer (probe : Nat → ProbeResult) (retry_limit : Nat) : PeerCheck :=
  checkPeerGo probe 1 (retry_limit - 1)

/-- Outcome of one round of `_check_health` over all peers. -/
inductive RoundOutcome
  | allHealthy
  | deadPeer (peer : Nat)
  | unexpectedPeer (peer : Nat)
  deriving DecidableEq, Repr

/-- One round of `_check_health`: iterate the peers in cluster order; the
first peer declared down (or hitting an unexpected exception) ends the
round — and, in the code, the whole monitor. -/
def checkRound (probe : Nat → Nat → ProbeResult) (retry_limit : Nat) :
    List Nat → RoundOutcome
  | [] => RoundOutcome.allHealthy
  | p :: rest =>
      match checkPeer (probe p) retry_limit with
      | PeerCheck.answered _ => checkRound probe retry_limit rest
      | PeerCheck.declaredDown _ => RoundOutcome.deadPeer p
      | PeerCheck.unexpectedErr _ => RoundOutcome.unexpectedPeer p

/-- One invocation of `context.abort_collective_ops` by the monitor: the
code aborts with `UNAVAILABLE` when a peer is down (line 670) and with
`INTERNAL` on an unexpected exception (line 676). -/
inductive AbortKind
  | unavailAbort (peer : Nat)
  | internalAbort (peer : Nat)
  deriving DecidableEq, Repr

/-- How a bounded run of the `_check_health` loop ended. -/
inductive MonitorEnd
  | stoppedByEvent
  | returnedAfterAbort
  | outOfFuel
  deriving DecidableEq, Repr

/-- Embeds the `while True` loop of `_check_health` (lines 643-680),
bounded by `fuel` rounds.  `probe round peer attempt` is the outcome of
one `check_collective_ops_peer_health` call; `stop round` is whether
`_check_health_thread_should_stop.is_set()` at the top of the round.  The
accumulated `log` records every `abort_collective_ops` call; in the code
each abort is immediately followed by `return`, so an abort ends the
loop. -/
def check_health (probe : Nat → Nat → Nat → ProbeResult) (stop : Nat → Bool)
    (retry_limit : Nat) (peers : List Nat) :
    Nat → Nat → List AbortKind → MonitorEnd × List AbortKind
  | 0, _, log => (MonitorEnd.outOfFuel, log)
  | fuel + 1, round, log =>
      if stop round then (MonitorEnd.stoppedByEvent, log)
      else
        match checkRound (probe round) retry_limit peers with
        | RoundOutcome.allHealthy =>
            check_health probe stop retry_limit peers fuel (round + 1) log
        | RoundOutcome.deadPeer p =>
            (MonitorEnd.returnedAfterAbort, log ++ [AbortKind.unavailAbort p])
        | RoundOutcome.unexpectedPeer p =>
            (MonitorEnd.returnedAfterAbort, log ++ [AbortKind.internalAbort p])

/-- Communication hints, embedded from `collective_util.Hints`. -/
structure Hints where
  bytes_per_pack : Nat
  timeout_seconds : Option ℚ
  deriving DecidableEq, Repr

/-- Errors out of `_start_check_health_thread` (lines 682-718): the
`RuntimeError` raised on `DeadlineExceededError` — the spec's
`ClusterNotReady` — or any other error of the barrier reduce, which the
method does not catch and lets propagate. -/
inductive StartErr
  | ClusterNotReady (timeout : ℚ)
  | propagated (e : CollErr)
  deriving DecidableEq, Repr

/-- State produced when `_start_check_health_thread` returns normally. -/
structure StartOutcome where
  /-- Whether `self._check_health_thread` was created and started. -/
  thread_started : Bool
  /-- The `daemon=True` flag of the created thread (line 717). -/
  daemon : Bool
  deriving DecidableEq, Repr

/-- The hints the barrier reduce is called with (lines 702-703):
`collective_util.Hints(timeout_seconds=self._check_health_initial_timeout)`. -/
def barrier_hints (initial_timeout : ℚ) : Hints :=
  ⟨0, some initial_timeout⟩

/-- Embeds `CollectiveAllReduceExtended._start_check_health_thread`
(lines 682-718).  Outside eager mode nothing is started.  Otherwise a
dummy all-reduce on the host channel, with the configurable initial
timeout as its hint, acts as a barrier for the whole cluster:
`DeadlineExceededError` is turned into the `ClusterNotReady` runtime
error and nothing is started; any other barrier error propagates; on
success the monitor thread is started as a daemon.  `barrier` is the
outcome of that dummy reduce. -/
def start_check_health_thread (executing_eagerly : Bool) (initial_timeout : ℚ)
    (barrier : Except CollErr Unit) : Except StartErr StartOutcome :=
  if ¬ executing_eagerly then Except.ok ⟨false, false⟩
  else
    match barrier with
    | Except.error CollErr.DeadlineExceeded =>
        Except.error (StartErr.ClusterNotReady initial_timeout)
    | Except.error e => Except.error (StartErr.propagated e)
    | Except.ok _ => Except.ok ⟨true, true⟩

/-- Whether the periodic `_check_health` loop is ever entered, given the
result of `_start_check_health_thread`: only a started thread runs it. -/
def monitor_entered : Except StartErr StartOutcome → Bool
  | Except.ok s => s.thread_started
  | Except.error _ => false

/-- The stop event `_check_health_thread_should_stop`. -/
structure StopEvent where
  is_set : Bool
  deriving DecidableEq, Repr

/-- The monitor thread as held by the coordinator. -/
structure HealthThread where
  daemon : Bool
  deriving DecidableEq, Repr

/-- Coordinator state seen by `_stop_check_health_thread`. -/
structure CoordState where
  check_health_thread : Option HealthThread
  should_stop : StopEvent
  deriving DecidableEq, Repr

/-- One `Thread.join` call with the timeout argument it was passed;
`none` is a `join()` with no timeout, which blocks until the thread
finishes. -/
structure JoinCall where
  timeout : Option ℚ
  deriving DecidableEq, Repr

/-- Embeds `CollectiveAllReduceExtended._stop_check_health_thread`
(lines 720-726): when a monitor thread exists, set the stop event, call
`self._check_health_thread.join()` — with no timeout argument — and drop
the thread; otherwise do nothing.  Returns the new state and the join
calls performed. -/
def stop_check_health_thread (s : CoordState) : CoordState × List JoinCall :=
  match s.check_health_thread with
  | none => (s, [])
  | some _ => ({ check_health_thread := none, should_stop := ⟨true⟩ }, [⟨none⟩])

/-- Embeds `CollectiveAllReduceExtended.__del__` (lines 400-401), which
just calls `_stop_check_health_thread`. -/
def del_coordinator (s : CoordState) : CoordState × List JoinCall :=
  stop_check_health_thread s

/-- A worker executing its fixed sequence of collective calls, as in the
scenarios of `mwms_peer_failure_test.py`: `program` is the ordered list of
instance keys the worker's collectives use, `pc` the call it is currently
blocked in. -/
structure WorkerTask where
  program : List Nat
  pc : Nat
  deriving DecidableEq, Repr

/-- The instance key a worker is currently blocked on, if any. -/
def WorkerTask.current (w : WorkerTask) : Option Nat :=
  w.program[w.pc]?

/-- A collective instance completes (all blocked calls return) exactly
when every worker of the group is blocked on the same instance key
("collectives sharing the same instance_key across tasks must be invoked
in the same relative order by every participant"). -/
def cluster_can_step (ws : List WorkerTask) : Bool :=
  match ws with
  | [] => false
  | w :: rest =>
      match w.current with
      | none => false
      | some k => rest.all (fun v => v.current == some k)

/-- Some worker is blocked in a collective call and no collective can
complete: every blocked call hangs. -/
def deadlocked (ws : List WorkerTask) : Bool :=
  ws.any (fun w => w.current.isSome) && !cluster_can_step ws

/-- The concrete multi-worker state computed by `init_multi_worker` for
task `("worker", 0)` in a cluster of 2 workers with 2 GPUs each; used to
instantiate the initialization theorems. -/
def mw_example : MWInit :=
  { num_workers := 2
    is_chief := true
    local_devices := ["/job:worker/task:0/device:GPU:0", "/job:worker/task:0/device:GPU:1"]
    cross_group_size := 4
    host_group_size := 2
    worker_devices := ["/job:worker/task:0/device:GPU:0", "/job:worker/task:0/device:GPU:1"]
    default_device := "/job:worker/task:0" }

/-- C1: for every pair of participants supplying tensors `a` and `b` to
`all_reduce` over a group of size 2 with the same `group_key` and
`instance_key`, the SUM reduction returns `a + b` to both participants
and the MEAN reduction returns `(a + b) / 2` to both participants. -/
theorem all_reduce_two_sum_mean (gk ik : Nat) (a b : Tensor)
    (hsh : b.shape = a.shape) (hdt : b.dtype = a.dtype) :
    all_reduce ReduceOp.SUM [⟨2, gk, ik, a⟩, ⟨2, gk, ik, b⟩] =
      Except.ok [Tensor.add a b, Tensor.add a b] ∧
    all_reduce ReduceOp.MEAN [⟨2, gk, ik, a⟩, ⟨2, gk, ik, b⟩] =
      Except.ok [(Tensor.add a b).divNat 2, (Tensor.add a b).divNat 2] := by
  constructor <;>
    simp [all_reduce, same_instance, group_sizes_ok, hsh, hdt, mergeData,
      finalizeData, Tensor.add, Tensor.divNat, List.replicate]

/-- Witness for C1 at the concrete inputs `a = [1, 2]`, `b = [3, 4]`
(group key 1, instance key 1, as in `testCollectiveReduce`). -/
theorem all_reduce_two_sum_mean_witness :
    all_reduce ReduceOp.SUM
        [⟨2, 1, 1, ⟨[2], DType.f32, [1, 2]⟩⟩, ⟨2, 1, 1, ⟨[2], DType.f32, [3, 4]⟩⟩] =
      Except.ok [Tensor.add ⟨[2], DType.f32, [1, 2]⟩ ⟨[2], DType.f32, [3, 4]⟩,
        Tensor.add ⟨[2], DType.f32, [1, 2]⟩ ⟨[2], DType.f32, [3, 4]⟩] ∧
    all_reduce ReduceOp.MEAN
        [⟨2, 1, 1, ⟨[2], DType.f32, [1, 2]⟩⟩, ⟨2, 1, 1, ⟨[2], DType.f32, [3, 4]⟩⟩] =
      Except.ok [(Tensor.add ⟨[2], DType.f32, [1, 2]⟩ ⟨[2], DType.f32, [3, 4]⟩).divNat 2,
        (Tensor.add ⟨[2], DType.f32, [1, 2]⟩ ⟨[2], DType.f32, [3, 4]⟩).divNat 2] :=
  all_reduce_two_sum_mean 1 1 ⟨[2], DType.f32, [1, 2]⟩ ⟨[2], DType.f32, [3, 4]⟩ rfl rfl

/-- Two participants of one instance with different declared group sizes
make `group_sizes_ok` false. -/
theorem group_sizes_ok_false_of_ne {ps : List PartInput} {p q : PartInput}
    (hp : p ∈ ps) (hq : q ∈ ps) (hne : p.group_size ≠ q.group_size) :
    group_sizes_ok ps = false := by
  by_contra hall
  rw [Bool.not_eq_false, group_sizes_ok, List.all_eq_true] at hall
  have h1 := hall p hp
  have h2 := hall q hq
  simp only [beq_iff_eq] at h1 h2
  exact hne (h1.trans h2.symm)

/-- C4: if two participants invoke a collective with the same `group_key`
and `instance_key` but declare different group sizes, the instance fails
with `GroupSizeMismatch` — the `Except.error` result means no partial
result is returned to any participant. -/
theorem all_reduce_group_size_mismatch (op : ReduceOp) (ps : List PartInput)
    (p q : PartInput) (hk : same_instance ps = true) (hp : p ∈ ps) (hq : q ∈ ps)
    (hne : p.group_size ≠ q.group_size) :
    all_reduce op ps = Except.error CollErr.GroupSizeMismatch := by
  have hfalse := group_sizes_ok_false_of_ne hp hq hne
  match ps with
  | [] => cases hp
  | r :: rest => simp [all_reduce, hk, hfalse]

/-- Witness for C4 at the inputs of `testCollectiveGroupSizeMismatch`:
group key 10, instance key 20, declared sizes 2 and 3. -/
theorem all_reduce_group_size_mismatch_witness :
    all_reduce ReduceOp.SUM
        [⟨2, 10, 20, ⟨[4], DType.i32, [1, 2, 3, 4]⟩⟩,
         ⟨3, 10, 20, ⟨[4], DType.i32, [5, 6, 7, 8]⟩⟩] =
      Except.error CollErr.GroupSizeMismatch :=
  all_reduce_group_size_mismatch ReduceOp.SUM _
    ⟨2, 10, 20, ⟨[4], DType.i32, [1, 2, 3, 4]⟩⟩
    ⟨3, 10, 20, ⟨[4], DType.i32, [5, 6, 7, 8]⟩⟩
    rfl (by simp) (by simp) (by decide)

/-- C7: whenever `all_gather` succeeds, every participant receives the
same tensor: the concatenation of the participants' tensors in ascending
rank order (the participant list order); in particular for two
participants supplying `t0` and `t1` every participant's result is
`t0 ++ t1` — never `t1 ++ t0` (unless the two coincide). -/
theorem all_gather_rank_order (ps : List PartInput) (rs : List Tensor)
    (h : all_gather ps = Except.ok rs) :
    rs = List.replicate ps.length (gatherConcat ps) ∧
    (∀ r ∈ rs, r.data = (ps.map (fun p => p.tensor.data)).flatten) ∧
    (∀ pa pb, ps = [pa, pb] → ∀ r ∈ rs, r.data = pa.tensor.data ++ pb.tensor.data) := by
  have hmain : rs = List.replicate ps.length (gatherConcat ps) := by
    match ps with
    | [] => simp [all_gather] at h
    | p :: rest =>
      rw [all_gather] at h
      split at h
      · cases h
      · split at h
        · cases h
        · split at h
          · cases h
          · split at h
            · cases h
            · injection h with h
              exact h.symm
  have hdata : ∀ r ∈ rs, r.data = (ps.map (fun p => p.tensor.data)).flatten := by
    intro r hr
    rw [hmain] at hr
    have hr' := List.eq_of_mem_replicate hr
    subst hr'
    cases ps <;> rfl
  refine ⟨hmain, hdata, ?_⟩
  intro pa pb hps r hr
  have := hdata r hr
  subst hps
  simpa using this

/-- Witness for C7 at the inputs of `testCollectiveGather`: the gathered
result both participants receive is `t0`'s data followed by `t1`'s data. -/
theorem all_gather_rank_order_witness :
    (gatherConcat
        [⟨2, 1, 1, ⟨[8], DType.i32, [0, 1, 2, 3, 4, 5, 6, 7]⟩⟩,
         ⟨2, 1, 1, ⟨[8], DType.i32, [10, 11, 12, 13, 14, 15, 16, 17]⟩⟩]).data =
      (⟨[8], DType.i32, [0, 1, 2, 3, 4, 5, 6, 7]⟩ : Tensor).data ++
      (⟨[8], DType.i32, [10, 11, 12, 13, 14, 15, 16, 17]⟩ : Tensor).data := by
  have h := all_gather_rank_order
    [⟨2, 1, 1, ⟨[8], DType.i32, [0, 1, 2, 3, 4, 5, 6, 7]⟩⟩,
     ⟨2, 1, 1, ⟨[8], DType.i32, [10, 11, 12, 13, 14, 15, 16, 17]⟩⟩]
    (List.replicate 2 (gatherConcat
      [⟨2, 1, 1, ⟨[8], DType.i32, [0, 1, 2, 3, 4, 5, 6, 7]⟩⟩,
       ⟨2, 1, 1, ⟨[8], DType.i32, [10, 11, 12, 13, 14, 15, 16, 17]⟩⟩])) rfl
  exact h.2.2 _ _ rfl _ (by simp [List.mem_replicate])

/-- C6: the initial-value broadcast is a round-trip for every tensor shape
and every multi-worker cluster: the chief evaluates its initial value and
broadcast-sends it, every non-chief broadcast-receives (declaring the
shape and dtype of its own evaluated initial value, which agree across
workers since every worker runs the same program), and each non-chief
receives exactly the value the chief sent. -/
theorem broadcast_initial_value_roundtrip (cv : Tensor) (ovs : List Tensor)
    (h : ∀ o ∈ ovs, o.shape = cv.shape ∧ o.dtype = cv.dtype) :
    run_initial_value_broadcast cv ovs =
      (Except.ok cv, List.replicate ovs.length (Except.ok cv)) := by
  rw [run_initial_value_broadcast]
  simp only [Prod.mk.injEq]
  constructor
  · rw [initial_value_result]
    split
    · rfl
    · rfl
  · rw [List.eq_replicate_iff]
    refine ⟨by simp, ?_⟩
    intro b hb
    rcases List.mem_map.mp hb with ⟨o, ho, rfl⟩
    have hsh := (h o ho).1
    have hdt := (h o ho).2
    have hpos : 0 < ovs.length := List.length_pos.mpr (List.ne_nil_of_mem ho)
    have h1 : ovs.length + 1 > 1 := by omega
    simp [initial_value_result, broadcast_recv, broadcast_send, h1, hsh, hdt]

/-- Witness for C6 at a concrete 2x2 tensor: the non-chief receives the
chief's value, not its own locally evaluated one. -/
theorem broadcast_initial_value_roundtrip_witness :
    run_initial_value_broadcast ⟨[2, 2], DType.f32, [1, 2, 3, 4]⟩
        [⟨[2, 2], DType.f32, [0, 0, 0, 0]⟩] =
      (Except.ok ⟨[2, 2], DType.f32, [1, 2, 3, 4]⟩,
        List.replicate 1 (Except.ok ⟨[2, 2], DType.f32, [1, 2, 3, 4]⟩)) :=
  broadcast_initial_value_roundtrip ⟨[2, 2], DType.f32, [1, 2, 3, 4]⟩
    [⟨[2, 2], DType.f32, [0, 0, 0, 0]⟩] (by simp)

/-- C8: after multi-worker initialization succeeds, the compute-device
channel's group size is the number of local devices times the number of
workers, the host channel's group size is the number of workers, and
`num_replicas_in_sync` is the number of local devices times the number of
workers.  The embedded state is immutable, so these values cannot change
for the lifetime of the coordinator. -/
theorem init_multi_worker_group_sizes (tt : String) (ti nw ng : Nat) (ic : Bool)
    (s : MWInit) (h : init_multi_worker tt ti nw ng ic = Except.ok s) :
    s.cross_group_size = s.local_devices.length * s.num_workers ∧
    s.host_group_size = s.num_workers ∧
    num_replicas_in_sync s = s.local_devices.length * s.num_workers ∧
    s.num_workers = nw := by
  rw [init_multi_worker] at h
  split at h
  · cases h
  · injection h with h
    subst h
    exact ⟨rfl, rfl, rfl, rfl⟩

/-- Witness for C8 at task `("worker", 0)` of a cluster of 2 workers with
2 GPUs each: the compute channel group size is `2 * 2`, the host channel
group size is 2 and there are `2 * 2` replicas in sync. -/
theorem init_multi_worker_group_sizes_witness :
    mw_example.cross_group_size = mw_example.local_devices.length * mw_example.num_workers ∧
    mw_example.host_group_size = mw_example.num_workers ∧
    num_replicas_in_sync mw_example = mw_example.local_devices.length * mw_example.num_workers ∧
    mw_example.num_workers = 2 :=
  init_multi_worker_group_sizes "worker" 0 2 2 true mw_example rfl

/-- C10: reducing a `Mirrored` (replica-identical) value with the MEAN op
returns the value itself unchanged and performs no collective
communication, for every worker count and device list. -/
theorem reduce_to_mean_mirrored_identity (ts : List Tensor) (num_workers : Nat)
    (worker_devices : List String) :
    reduce_to ReduceOp.MEAN (DistValue.mirrored ts) num_workers worker_devices =
      ReduceDispatch.identity (DistValue.mirrored ts) ∧
    (reduce_to ReduceOp.MEAN (DistValue.mirrored ts) num_workers
        worker_devices).performsCollective = false :=
  ⟨rfl, rfl⟩

/-- A peer is declared down at attempt `a + r` exactly when the retry loop
started at attempt `a` with `r` retries left, and every probe from attempt
`a` up to the declaration failed. -/
theorem checkPeerGo_declaredDown (probe : Nat → ProbeResult) :
    ∀ (r a n : Nat), checkPeerGo probe a r = PeerCheck.declaredDown n →
      n = a + r ∧ ∀ i, a ≤ i → i ≤ n → (probe i).isFailure = true := by
  intro r
  induction r with
  | zero =>
      intro a n h
      cases hp : probe a <;> simp [checkPeerGo, hp] at h
      all_goals
        refine ⟨by omega, ?_⟩
      all_goals
        intro i h1 h2
      all_goals
        have hia : i = a := by omega
      all_goals
        subst hia
      all_goals
        simp [hp, ProbeResult.isFailure]
  | succ r ih =>
      intro a n h
      cases hp : probe a <;> simp [checkPeerGo, hp] at h
      all_goals
        obtain ⟨h1, h2⟩ := ih (a + 1) n h
      all_goals
        refine ⟨by omega, ?_⟩
      all_goals
        intro i hi1 hi2
      all_goals
        rcases Nat.eq_or_lt_of_le hi1 with he | hl
      · subst he
        simp [hp, ProbeResult.isFailure]
      · exact h2 i (by omega) hi2
      · subst he
        simp [hp, ProbeResult.isFailure]
      · exact h2 i (by omega) hi2

/-- The abort log of a bounded `_check_health` run that started with an
empty log never holds more than one abort, and holds exactly one when the
loop ended by returning after an abort. -/
theorem check_health_log_bound (probe : Nat → Nat → Nat → ProbeResult)
    (stop : Nat → Bool) (retry_limit : Nat) (peers : List Nat) :
    ∀ (fuel round : Nat),
      ((check_health probe stop retry_limit peers fuel round []).2).length ≤ 1 ∧
      ((check_health probe stop retry_limit peers fuel round []).1 =
          MonitorEnd.returnedAfterAbort ↔
        ((check_health probe stop retry_limit peers fuel round []).2).length = 1) := by
  intro fuel
  induction fuel with
  | zero =>
      intro round
      simp [check_health]
  | succ f ih =>
      intro round
      by_cases hs : stop round
      · simp [check_health, hs]
      · cases hr : checkRound (probe round) retry_limit peers <;>
          simp [check_health, hs, hr]
        exact ih (round + 1)

/-- C2: a peer is declared down only after the retry limit (so with the
default limit of 3, attempts 1, 2 and 3 all failed consecutively); and a
bounded run of the `_check_health` loop invokes `abort_collective_ops` at
most once — exactly once when it ends by returning after an abort, which
is also how the loop terminates on the first peer declared down, so a
second abort can never be triggered in the same run. -/
theorem check_health_retry_limit_and_single_abort :
    (∀ (probe : Nat → ProbeResult) (retry_limit n : Nat),
        checkPeer probe retry_limit = PeerCheck.declaredDown n →
          n = max retry_limit 1 ∧ ∀ i, 1 ≤ i → i ≤ n → (probe i).isFailure = true) ∧
    (∀ probe stop retry_limit peers fuel round,
        ((check_health probe stop retry_limit peers fuel round []).2).length ≤ 1) ∧
    (∀ probe stop retry_limit peers fuel round,
        (check_health probe stop retry_limit peers fuel round []).1 =
            MonitorEnd.returnedAfterAbort ↔
          ((check_health probe stop retry_limit peers fuel round []).2).length = 1) ∧
    (∀ probe stop retry_limit peers fuel round p, stop round = false →
        checkRound (probe round) retry_limit peers = RoundOutcome.deadPeer p →
        check_health probe stop retry_limit peers (fuel + 1) round [] =
          (MonitorEnd.returnedAfterAbort, [AbortKind.unavailAbort p])) := by
  refine ⟨?_, ?_, ?_, ?_⟩
  · intro probe retry_limit n h
    obtain ⟨h1, h2⟩ := checkPeerGo_declaredDown probe (retry_limit - 1) 1 n h
    exact ⟨by omega, h2⟩
  · intro probe stop retry_limit peers fuel round
    exact (check_health_log_bound probe stop retry_limit peers fuel round).1
  · intro probe stop retry_limit peers fuel round
    exact (check_health_log_bound probe stop retry_limit peers fuel round).2
  · intro probe stop retry_limit peers fuel round p h1 h2
    simp [check_health, h1, h2]

/-- Witness for C2: with every probe failing `Unavailable`, a peer is
declared down at attempt 3 under the default retry limit of 3 (so probe
attempt 2, in particular, failed), the abort log of a run stays within
one entry, and a round with a dead peer aborts with `UNAVAILABLE` once
and ends the loop. -/
theorem check_health_retry_limit_and_single_abort_witness :
    ProbeResult.isFailure ProbeResult.unavailable = true ∧
    ((check_health (fun _ _ _ => ProbeResult.unavailable) (fun _ => false)
        3 [0, 1] 4 0 []).2).length ≤ 1 ∧
    check_health (fun _ _ _ => ProbeResult.unavailable) (fun _ => false) 3 [0, 1] 1 0 [] =
      (MonitorEnd.returnedAfterAbort, [AbortKind.unavailAbort 0]) := by
  have h := check_health_retry_limit_and_single_abort
  refine ⟨?_, h.2.1 _ _ _ _ 4 0, h.2.2.2 _ _ _ _ 0 0 0 rfl rfl⟩
  exact (h.1 (fun _ => ProbeResult.unavailable) 3 3 rfl).2 2 (by omega) (by omega)

/-- C5: if the initial barrier collective (the dummy reduce run with the
configurable initial timeout) does not complete within the startup
timeout — the barrier reduce fails with `DeadlineExceeded` —
initialization raises `ClusterNotReady` immediately and the periodic
health-check loop is never entered; and the barrier is indeed issued with
`Hints(timeout_seconds=initial_timeout)`. -/
theorem start_check_health_cluster_not_ready (t : ℚ) :
    start_check_health_thread true t (Except.error CollErr.DeadlineExceeded) =
      Except.error (StartErr.ClusterNotReady t) ∧
    monitor_entered
        (start_check_health_thread true t (Except.error CollErr.DeadlineExceeded)) = false ∧
    barrier_hints t = ⟨0, some t⟩ := by
  refine ⟨?_, ?_, rfl⟩ <;> simp [start_check_health_thread, monitor_entered]

/-- C9 counterexample: the claim says the join on the monitor thread is
bounded by a timeout, i.e. every `Thread.join` performed by
`_stop_check_health_thread` carries a timeout argument.  At the concrete
coordinator state holding a running monitor thread, the single join the
stop (and the destructor, which is the same call) performs has no
timeout argument at all: the claim's bounded-join property is false. -/
theorem stop_join_unbounded_counterexample :
    ((stop_check_health_thread ⟨some ⟨true⟩, ⟨false⟩⟩).2).all
        (fun j => j.timeout.isSome) = false ∧
    (del_coordinator ⟨some ⟨true⟩, ⟨false⟩⟩).2 = [⟨none⟩] :=
  ⟨rfl, rfl⟩

/-- C9 as amended: stopping the coordinator — and destructor-time cleanup,
which performs the same call — sets the stop event and joins the monitor
thread with a `join()` that has no timeout bound; the monitor thread was
started as a daemon thread, so it cannot block process exit even when
`__del__` never runs. -/
theorem stop_check_health_unbounded_join (s : CoordState) (th : HealthThread)
    (h : s.check_health_thread = some th) :
    (stop_check_health_thread s).1.should_stop.is_set = true ∧
    (stop_check_health_thread s).1.check_health_thread = none ∧
    (stop_check_health_thread s).2 = [⟨none⟩] ∧
    del_coordinator s = stop_check_health_thread s ∧
    ∀ t : ℚ, start_check_health_thread true t (Except.ok ()) = Except.ok ⟨true, true⟩ := by
  refine ⟨?_, ?_, ?_, rfl, fun t => by simp [start_check_health_thread]⟩ <;>
    simp [stop_check_health_thread, h]

/-- Witness for the amended C9 at a coordinator holding a running daemon
monitor thread. -/
theorem stop_check_health_unbounded_join_witness :
    (stop_check_health_thread ⟨some ⟨true⟩, ⟨false⟩⟩).1.should_stop.is_set = true ∧
    (stop_check_health_thread ⟨some ⟨true⟩, ⟨false⟩⟩).1.check_health_thread = none ∧
    (stop_check_health_thread ⟨some ⟨true⟩, ⟨false⟩⟩).2 = [⟨none⟩] ∧
    del_coordinator ⟨some ⟨true⟩, ⟨false⟩⟩ =
      stop_check_health_thread ⟨some ⟨true⟩, ⟨false⟩⟩ ∧
    ∀ t : ℚ, start_check_health_thread true t (Except.ok ()) = Except.ok ⟨true, true⟩ :=
  stop_check_health_unbounded_join ⟨some ⟨true⟩, ⟨false⟩⟩ ⟨true⟩ rfl

/-- C3, evidence for the divergence shown by
`PeerFailureTest.test_reduce_small_tensor_broken`: worker-1 exits after
the first reduce and is restarted, so worker-0 blocks in its second
reduce (instance key 2) while the recovered worker-1 blocks in its first
(instance key 1).  No collective can then complete — the cluster is
deadlocked — and since the restarted peer answers health probes, the
monitor loop never aborts, so the blocked call hangs instead of failing
with `Unavailable` (the test asserts the resulting timeout, with
TODO(b/151232436) recording that it should raise `Unavailable`). -/
theorem blocked_reduce_hangs_without_abort :
    deadlocked [⟨[1, 2], 1⟩, ⟨[1, 2], 0⟩] = true ∧
    check_health (fun _ _ _ => ProbeResult.healthy) (fun _ => false) 3 [0, 1] 5 0 [] =
      (MonitorEnd.outOfFuel, []) :=
  ⟨rfl, rfl⟩

end Collective
